import Mathlib

/-!
Verification development for the job-results analytics transformation of the
audit front end (the API route handler in pages/api/[...slug].ts).

The TypeScript code is shallowly embedded: JavaScript runtime values are
modelled by the inductive type `JValue`, JSON.parse by the executable parser
`jsonParse`, and the functions `safeParseJSONArray`, `extractFailureCauses`,
the per-patient normalization of `transformJobResultsForFrontend`, and
`generateEnhancedPatientAnalytics` are translated definition by definition.
JavaScript numbers are idealized as rationals; property access on a JS value
that is neither null nor undefined and has no such property yields undefined,
as in JavaScript.  Operations that would throw a TypeError in JavaScript
(calling .trim on a truthy non-string, .includes on a number) are guarded in
the theorems by the decidable well-shapedness predicates below, which delimit
the inputs on which the embedding and the JavaScript agree.
-/

/-- A JavaScript runtime value: null, undefined, boolean, number (idealized
as a rational), string, array, or plain object (ordered field list). -/
inductive JValue where
  | null : JValue
  | undefined : JValue
  | bool : Bool → JValue
  | num : ℚ → JValue
  | str : String → JValue
  | arr : List JValue → JValue
  | obj : List (String × JValue) → JValue

/-- JavaScript truthiness: null, undefined, false, 0 and the empty string are
falsy; every other value (including empty arrays and objects) is truthy. -/
def truthy : JValue → Bool
  | .null => false
  | .undefined => false
  | .bool b => b
  | .num q => if q = 0 then false else true
  | .str s => if s = "" then false else true
  | .arr _ => true
  | .obj _ => true

/-- Strict equality test of a JS value against a string literal, as in
`v === "success"`: true exactly when the value is that string. -/
def jeqStr (v : JValue) (s : String) : Bool :=
  match v with
  | .str t => t == s
  | _ => false

def JValue.isStr : JValue → Bool
  | .str _ => true
  | _ => false

def JValue.isNum : JValue → Bool
  | .num _ => true
  | _ => false

def JValue.isArr : JValue → Bool
  | .arr _ => true
  | _ => false

def JValue.isNullish : JValue → Bool
  | .null => true
  | .undefined => true
  | _ => false

/-- First-match lookup in an object field list; missing fields give
undefined, as JS property access does. -/
def olookup : List (String × JValue) → String → JValue
  | [], _ => .undefined
  | (k, v) :: rest, key => if k = key then v else olookup rest key

/-- JS property access `v[key]`: field lookup on objects, undefined on every
other value (access on null and undefined throws in JS and is excluded by the
well-shapedness hypotheses of the theorems). -/
def jget (v : JValue) (key : String) : JValue :=
  match v with
  | .obj fs => olookup fs key
  | _ => .undefined

/-- The JS idiom `a || b`: a if truthy, else b. -/
def jsOr (a b : JValue) : JValue :=
  if truthy a then a else b

/-- Does the character list start with the given pattern. -/
def startsWithL : List Char → List Char → Bool
  | _, [] => true
  | [], _ :: _ => false
  | c :: cs, d :: ds => c == d && startsWithL cs ds

/-- Does the character list contain the given pattern as a contiguous run. -/
def containsSubL : List Char → List Char → Bool
  | [], pat => pat.isEmpty
  | c :: cs, pat => startsWithL (c :: cs) pat || containsSubL cs pat

/-- JS `String.prototype.includes`: substring containment. -/
def strIncludes (hay pat : String) : Bool :=
  containsSubL hay.data pat.data

/-- JS `v.includes(s)` as used by the aggregator: element membership by
strict equality on arrays, substring test on strings, false otherwise
(numbers and objects have no such method and are excluded by the
well-shapedness hypotheses). -/
def jincludes (v : JValue) (s : String) : Bool :=
  match v with
  | .arr xs => xs.any (fun x => jeqStr x s)
  | .str t => strIncludes t s
  | _ => false

/-- JS string trim, on the ASCII whitespace the inputs here contain. -/
def jsTrim (s : String) : String :=
  String.mk (((s.data.dropWhile (fun c =>
    c = ' ' ∨ c = '\t' ∨ c = '\n' ∨ c = '\r')).reverse.dropWhile (fun c =>
    c = ' ' ∨ c = '\t' ∨ c = '\n' ∨ c = '\r')).reverse)

/-- JS split on a comma: the comma-separated chunks, in order, keeping
empty chunks. -/
def splitCommaAux : List Char → List Char → List (List Char)
  | [], acc => [acc.reverse]
  | c :: cs, acc =>
    if c = ',' then acc.reverse :: splitCommaAux cs [] else splitCommaAux cs (c :: acc)

def jsSplitComma (s : String) : List String :=
  (splitCommaAux s.data []).map String.mk

/-- A frequency map `Record<string, number>` as an insertion-ordered
association list with pairwise-distinct keys. -/
abbrev Freq := List (String × Nat)

/-- The JS idiom `m[k] = (m[k] || 0) + 1`: increment in place if the key is
present, otherwise append it with count 1. -/
def bump (m : Freq) (k : String) : Freq :=
  if m.any (fun kv => kv.1 = k) then
    m.map (fun kv => if kv.1 = k then (kv.1, kv.2 + 1) else kv)
  else
    m ++ [(k, 1)]

/-- The keys of a frequency map, in insertion order (Object.keys). -/
def fkeys (m : Freq) : List String :=
  m.map Prod.fst

/-- Lookup with default 0, the JS read `m[k] || 0`. -/
def fget (m : Freq) (k : String) : Nat :=
  match m with
  | [] => 0
  | kv :: rest => if kv.1 = k then kv.2 else fget rest k

/-- JSON whitespace skipping (space, tab, newline, carriage return). -/
def skipWs : List Char → List Char
  | c :: cs =>
    if c = ' ' ∨ c = '\t' ∨ c = '\n' ∨ c = '\r' then skipWs cs else c :: cs
  | [] => []

/-- Hexadecimal digit value, for \uXXXX escapes. -/
def hexVal (c : Char) : Option Nat :=
  if '0' ≤ c ∧ c ≤ '9' then some (c.toNat - 48)
  else if 'a' ≤ c ∧ c ≤ 'f' then some (c.toNat - 87)
  else if 'A' ≤ c ∧ c ≤ 'F' then some (c.toNat - 55)
  else none

/-- Body of a JSON string literal, after the opening quote: characters up to
the closing quote, with the standard escapes. -/
def parseStrRest : List Char → List Char → Except String (String × List Char)
  | [], _ => .error "unterminated string"
  | '"' :: cs, acc => .ok (String.mk acc.reverse, cs)
  | '\\' :: '"' :: cs, acc => parseStrRest cs ('"' :: acc)
  | '\\' :: '\\' :: cs, acc => parseStrRest cs ('\\' :: acc)
  | '\\' :: '/' :: cs, acc => parseStrRest cs ('/' :: acc)
  | '\\' :: 'n' :: cs, acc => parseStrRest cs ('\n' :: acc)
  | '\\' :: 't' :: cs, acc => parseStrRest cs ('\t' :: acc)
  | '\\' :: 'r' :: cs, acc => parseStrRest cs ('\r' :: acc)
  | '\\' :: 'b' :: cs, acc => parseStrRest cs (Char.ofNat 8 :: acc)
  | '\\' :: 'f' :: cs, acc => parseStrRest cs (Char.ofNat 12 :: acc)
  | '\\' :: 'u' :: h1 :: h2 :: h3 :: h4 :: cs, acc =>
    match hexVal h1, hexVal h2, hexVal h3, hexVal h4 with
    | some a, some b, some c, some d =>
      parseStrRest cs (Char.ofNat (((a * 16 + b) * 16 + c) * 16 + d) :: acc)
    | _, _, _, _ => .error "bad unicode escape"
  | '\\' :: _, _ => .error "bad escape"
  | c :: cs, acc =>
    if c.toNat < 32 then .error "control character in string"
    else parseStrRest cs (c :: acc)

/-- Digit run to a natural number. -/
def digitsToNat (ds : List Char) : Nat :=
  ds.foldl (fun n c => n * 10 + (c.toNat - 48)) 0

/-- Integer power of ten as a rational. -/
def pow10 (z : Int) : ℚ :=
  if 0 ≤ z then ((10 : ℚ)) ^ z.toNat else 1 / ((10 : ℚ)) ^ (-z).toNat

/-- Optional fraction part of a JSON number, applied to the integer part. -/
def parseFrac (i : Nat) (cs : List Char) : Except String (ℚ × List Char) :=
  match cs with
  | '.' :: t =>
    let p := t.span Char.isDigit
    if p.1.isEmpty then .error "bad fraction"
    else .ok ((i : ℚ) + (digitsToNat p.1 : ℚ) / (10 : ℚ) ^ p.1.length, p.2)
  | _ => .ok ((i : ℚ), cs)

/-- Optional exponent part of a JSON number, applied to the mantissa. -/
def parseExpPart (q : ℚ) (cs : List Char) : Except String (ℚ × List Char) :=
  match cs with
  | c :: t =>
    if c = 'e' ∨ c = 'E' then
      let sg : Int × List Char :=
        match t with
        | '+' :: u => (1, u)
        | '-' :: u => (-1, u)
        | _ => (1, t)
      let p := sg.2.span Char.isDigit
      if p.1.isEmpty then .error "bad exponent"
      else .ok (q * pow10 (sg.1 * (digitsToNat p.1 : Int)), p.2)
    else .ok (q, c :: t)
  | [] => .ok (q, [])

/-- A JSON number: optional minus, integer part with no leading zeros,
optional fraction and exponent. -/
def parseNumber (cs : List Char) : Except String (ℚ × List Char) :=
  let sg : Bool × List Char :=
    match cs with
    | '-' :: t => (true, t)
    | _ => (false, cs)
  let intRes : Except String (Nat × List Char) :=
    match sg.2 with
    | '0' :: t => .ok (0, t)
    | c :: t =>
      if c.isDigit then
        let p := (c :: t).span Char.isDigit
        .ok (digitsToNat p.1, p.2)
      else .error "bad number"
    | [] => .error "bad number"
  match intRes with
  | .error e => .error e
  | .ok (i, rest) =>
    match parseFrac i rest with
    | .error e => .error e
    | .ok (q, rest2) =>
      match parseExpPart q rest2 with
      | .error e => .error e
      | .ok (q2, rest3) => .ok (if sg.1 then -q2 else q2, rest3)

/-- Insert or overwrite an object key, as repeated keys behave in
JSON.parse (the last occurrence wins). -/
def objInsert (fs : List (String × JValue)) (k : String) (v : JValue) :
    List (String × JValue) :=
  if fs.any (fun kv => kv.1 = k) then
    fs.map (fun kv => if kv.1 = k then (k, v) else kv)
  else
    fs ++ [(k, v)]

mutual

/-- One JSON value, fuel-bounded recursive-descent. -/
def parseVal : Nat → List Char → Except String (JValue × List Char)
  | 0, _ => .error "fuel exhausted"
  | Nat.succ fuel, cs =>
    match skipWs cs with
    | [] => .error "unexpected end of input"
    | 'n' :: 'u' :: 'l' :: 'l' :: rest => .ok (.null, rest)
    | 't' :: 'r' :: 'u' :: 'e' :: rest => .ok (.bool true, rest)
    | 'f' :: 'a' :: 'l' :: 's' :: 'e' :: rest => .ok (.bool false, rest)
    | '"' :: rest =>
      match parseStrRest rest [] with
      | .ok (s, rest2) => .ok (.str s, rest2)
      | .error e => .error e
    | '[' :: rest =>
      match skipWs rest with
      | ']' :: rest2 => .ok (.arr [], rest2)
      | other => parseArrItems fuel other []
    | '{' :: rest =>
      match skipWs rest with
      | '}' :: rest2 => .ok (.obj [], rest2)
      | other => parseObjItems fuel other []
    | c :: rest =>
      if c = '-' ∨ c.isDigit then
        match parseNumber (c :: rest) with
        | .ok (q, rest2) => .ok (.num q, rest2)
        | .error e => .error e
      else .error "unexpected character"

/-- Comma-separated array elements up to the closing bracket. -/
def parseArrItems (fuel : Nat) (cs : List Char) (acc : List JValue) :
    Except String (JValue × List Char) :=
  match fuel with
  | 0 => .error "fuel exhausted"
  | Nat.succ fuel =>
    match parseVal fuel cs with
    | .error e => .error e
    | .ok (v, rest) =>
      match skipWs rest with
      | ',' :: rest2 => parseArrItems fuel rest2 (acc ++ [v])
      | ']' :: rest2 => .ok (.arr (acc ++ [v]), rest2)
      | _ => .error "expected comma or closing bracket"

/-- Comma-separated object members up to the closing brace. -/
def parseObjItems (fuel : Nat) (cs : List Char) (acc : List (String × JValue)) :
    Except String (JValue × List Char) :=
  match fuel with
  | 0 => .error "fuel exhausted"
  | Nat.succ fuel =>
    match skipWs cs with
    | '"' :: rest =>
      match parseStrRest rest [] with
      | .error e => .error e
      | .ok (k, rest2) =>
        match skipWs rest2 with
        | ':' :: rest3 =>
          match parseVal fuel rest3 with
          | .error e => .error e
          | .ok (v, rest4) =>
            match skipWs rest4 with
            | ',' :: rest5 => parseObjItems fuel rest5 (objInsert acc k v)
            | '}' :: rest5 => .ok (.obj (objInsert acc k v), rest5)
            | _ => .error "expected comma or closing brace"
        | _ => .error "expected colon"
    | _ => .error "expected string key"

end

/-- Model of JSON.parse: parse one value, then require only whitespace to
remain; any violation of the JSON grammar is an error (a thrown
SyntaxError in JS). -/
def jsonParse (s : String) : Except String JValue :=
  match parseVal (2 * s.length + 2) s.data with
  | .error e => .error e
  | .ok (v, rest) =>
    match skipWs rest with
    | [] => .ok v
    | _ => .error "unexpected trailing characters"

/-- JS `s.replace(/["\[\]]/g, "")`: strip every double quote and square
bracket. -/
def stripQB (s : String) : String :=
  String.mk (s.data.filter (fun c => !(c == '"' || c == '[' || c == ']')))

/-- The best-effort recovery of safeParseJSONArray for a malformed JSON
string with a comma: split on commas, trim each piece, strip quotes and
brackets, drop empty results (lines 306 to 308 of the handler). -/
def bestEffortSplit (s : String) : List String :=
  ((jsSplitComma s).map (fun t => stripQB (jsTrim t))).filter (fun t => !(t == ""))

/-- safeParseJSONArray (lines 294 to 314): arrays pass through; non-blank
strings are JSON-parsed (a non-array parse is wrapped in a one-element
list); on parse failure the string is comma-split or wrapped after
stripping quotes and brackets; anything else gives the fallback. -/
def safeParseJSONArray (jsonString : JValue) (fallback : List JValue) :
    List JValue :=
  match jsonString with
  | .arr xs => xs
  | .str s =>
    if jsTrim s ≠ "" then
      match jsonParse s with
      | .ok (.arr xs) => xs
      | .ok j => [j]
      | .error _ =>
        if strIncludes s "," then (bestEffortSplit s).map JValue.str
        else [JValue.str (stripQB s)]
    else fallback
  | _ => fallback

/-- The surgery-outcome normalization of transformJobResultsForFrontend
(lines 244 to 247): a falsy or empty raw value becomes the string unknown,
every other value is kept as is. -/
def normalizeSurgeryOutcome (raw : JValue) : JValue :=
  if truthy raw then raw else .str "unknown"

/-- The mortality-status normalization (lines 250 to 253): a falsy or empty
raw value becomes the string alive, every other value is kept as is. -/
def normalizeMortalityStatus (raw : JValue) : JValue :=
  if truthy raw then raw else .str "alive"

/-- What the claim C1 sentence of the spec describes, written from the spec
words for comparison with the source definition above: return the raw value
only when it is one of the three canonical outcome strings and non-empty,
otherwise return unknown. -/
def normalizeSurgeryOutcomeSpec (raw : JValue) : JValue :=
  if (jeqStr raw "success" || jeqStr raw "failure" || jeqStr raw "unknown")
      && truthy raw then raw
  else .str "unknown"

/-- The per-patient normalization of transformJobResultsForFrontend
(lines 237 to 271): parse the three embedded list fields, normalize surgery
outcome and mortality status, default the scalar fields. -/
def transformPatient (patient : JValue) : JValue :=
  let failureCauses := safeParseJSONArray (jget patient "failure_causes") []
  let primaryConcerns := safeParseJSONArray (jget patient "primary_concerns") []
  let mortalityCauses := safeParseJSONArray (jget patient "mortality_causes") []
  let surgeryOutcome := normalizeSurgeryOutcome (jget patient "surgery_outcome")
  let mortalityStatus := normalizeMortalityStatus (jget patient "mortality_status")
  .obj
    [ ("patient_id", jget patient "patient_id"),
      ("total_comorbidities", jsOr (jget patient "total_comorbidities") (.num 0)),
      ("highest_confidence", jsOr (jget patient "highest_confidence") (.num 0)),
      ("comorbidity_summary", jsOr (jget patient "comorbidity_summary") (.str "")),
      ("surgery_outcome", surgeryOutcome),
      ("failure_causes", .arr failureCauses),
      ("primary_concerns", .arr primaryConcerns),
      ("comprehensive_summary", jsOr (jget patient "comprehensive_summary") (.str "")),
      ("columns_analyzed", jsOr (jget patient "columns_analyzed") (.num 0)),
      ("mortality_status", mortalityStatus),
      ("mortality_confidence", jsOr (jget patient "mortality_confidence") (.num 0)),
      ("mortality_causes", .arr mortalityCauses),
      ("time_of_death", jsOr (jget patient "time_of_death") .null) ]

/-- One failure cause of one failed patient (lines 340 to 347): count it
when it is a truthy string whose trim is non-blank and not the literal
null or undefined token. -/
def failureCauseStep (m : Freq) (cause : JValue) : Freq :=
  match cause with
  | .str s =>
    if s ≠ "" ∧ jsTrim s ≠ "" then
      let cleanCause := jsTrim s
      if cleanCause ≠ "null" ∧ cleanCause ≠ "" ∧ cleanCause ≠ "undefined" then
        bump m cleanCause
      else m
    else m
  | _ => m

/-- extractFailureCauses (lines 334 to 352): over patients whose surgery
outcome is the string failure and whose failure_causes field is truthy,
count each acceptable cause; a non-array field is wrapped in a one-element
list first. -/
def extractFailureCauses (patientSummaries : List JValue) : Freq :=
  patientSummaries.foldl
    (fun m patient =>
      if jeqStr (jget patient "surgery_outcome") "failure"
          && truthy (jget patient "failure_causes") then
        let causes :=
          match jget patient "failure_causes" with
          | .arr xs => xs
          | v => [v]
        causes.foldl failureCauseStep m
      else m)
    []

/-- The mortality causes contributed by one deceased patient
(lines 422 to 428): only an array field contributes; a cause is kept when
it is truthy, trims to non-blank, and is not the string null (the literal
undefined token is NOT excluded here). Truthy non-string causes would
throw in JS and are excluded by well-shapedness. -/
def deceasedCauses (patient : JValue) : List String :=
  match jget patient "mortality_causes" with
  | .arr xs =>
    xs.filterMap (fun c =>
      match c with
      | .str s => if s ≠ "" ∧ jsTrim s ≠ "" ∧ s ≠ "null" then some (jsTrim s) else none
      | _ => none)
  | _ => []

/-- The comorbidity name of one primary-concern entry (lines 450 to 461):
a string counts as itself; an object contributes its comorbidity field when
that is a truthy string; the key recorded is the trimmed name, kept only
when non-blank. -/
def concernCleanName (concern : JValue) : Option String :=
  match concern with
  | .str s => if s ≠ "" ∧ jsTrim s ≠ "" then some (jsTrim s) else none
  | .obj fs =>
    match olookup fs "comorbidity" with
    | .str s => if s ≠ "" ∧ jsTrim s ≠ "" then some (jsTrim s) else none
    | _ => none
  | _ => none

/-- Comorbidity frequency from primary concerns (lines 445 to 464). -/
def comorbidityCountsFromConcerns (patientSummaries : List JValue) : Freq :=
  patientSummaries.foldl
    (fun m patient =>
      match jget patient "primary_concerns" with
      | .arr xs =>
        xs.foldl
          (fun m c =>
            match concernCleanName c with
            | some n => bump m n
            | none => m)
          m
      | _ => m)
    []

/-- Fallback comorbidity frequency from match records (lines 467 to 474);
the key is the UNtrimmed comorbidity_name. -/
def comorbidityCountsFromMatches (matchRecords : List JValue) : Freq :=
  matchRecords.foldl
    (fun m mt =>
      match jget mt "comorbidity_name" with
      | .str s => if s ≠ "" ∧ jsTrim s ≠ "" then bump m s else m
      | _ => m)
    []

/-- The comorbidity-frequency map actually used: concerns first, match
records only when the concern map is empty and matches exist (line 467). -/
def comorbidityCountsFull (patientSummaries matchRecords : List JValue) : Freq :=
  let fromConcerns := comorbidityCountsFromConcerns patientSummaries
  if fromConcerns.length = 0 ∧ matchRecords.length > 0 then
    comorbidityCountsFromMatches matchRecords
  else fromConcerns

/-- Column-effectiveness frequency from match records (lines 515 to 521);
the key is the UNtrimmed column_name. -/
def columnCounts (matchRecords : List JValue) : Freq :=
  matchRecords.foldl
    (fun m mt =>
      match jget mt "column_name" with
      | .str s => if s ≠ "" ∧ jsTrim s ≠ "" then bump m s else m
      | _ => m)
    []

/-- One key of the comorbidity map in the high-risk scan (lines 478 to 490):
filter the patients whose truthy primary_concerns includes the key, compute
the mortality rate within that subset, and append the key with its rate when
the subset is non-empty and the rate exceeds 20. -/
def highRiskStep (patientSummaries : List JValue) (acc : List (String × ℚ))
    (kv : String × Nat) : List (String × ℚ) :=
  let comorbidity := kv.1
  let patientsWith := patientSummaries.filter (fun p =>
    truthy (jget p "primary_concerns")
      && jincludes (jget p "primary_concerns") comorbidity)
  let deceasedWith := patientsWith.filter (fun p =>
    jeqStr (jget p "mortality_status") "deceased")
  if patientsWith.length > 0 then
    let mortalityRate : ℚ :=
      (deceasedWith.length : ℚ) / (patientsWith.length : ℚ) * 100
    if mortalityRate > 20 then acc ++ [(comorbidity, mortalityRate)] else acc
  else acc

/-- The high-risk comorbidity map: the scan above over every key of the
comorbidity-frequency map, in insertion order. -/
def highRiskComorbidities (patientSummaries : List JValue) (counts : Freq) :
    List (String × ℚ) :=
  counts.foldl (highRiskStep patientSummaries) []

/-- The surgery_outcomes record of the analytics summary. -/
structure SurgeryOutcomes where
  successful : Nat
  failed : Nat
  unknown : Nat
  success_rate : ℚ

/-- The risk_distribution record: the four bucket counters. -/
structure RiskDist where
  critical : Nat
  high : Nat
  medium : Nat
  low : Nat

/-- The mortality_analytics record of the analytics summary. -/
structure MortalityAnalytics where
  deceased_patients : Nat
  alive_patients : Nat
  mortality_rate : ℚ
  mortality_causes : Freq
  failed_surgery_deaths : Nat
  success_surgery_deaths : Nat
  death_rate_in_failed : ℚ
  death_rate_in_successful : ℚ
  high_risk_comorbidities : List (String × ℚ)
  risk_distribution : RiskDist

/-- The analytics summary returned by generateEnhancedPatientAnalytics. -/
structure Analytics where
  total_patients : Nat
  avg_comorbidities_per_patient : ℚ
  most_common_comorbidities : Freq
  most_effective_columns : Freq
  surgery_outcomes : SurgeryOutcomes
  mortality_analytics : MortalityAnalytics
  failure_causes : Freq

/-- The numeric coercion `patient.total_comorbidities || 0` under the
well-shapedness hypothesis that a truthy value there is a number. -/
def jnumOr0 (v : JValue) : ℚ :=
  match jsOr v (.num 0) with
  | .num q => q
  | _ => 0

/-- One patient of the risk-distribution pass (lines 495 to 509): the
first-match-wins if chain over deceased, failed surgery and comorbidity
count. -/
def riskStep (rd : RiskDist) (patient : JValue) : RiskDist :=
  let comorbidityCount : ℚ := jnumOr0 (jget patient "total_comorbidities")
  let isDeceased := jeqStr (jget patient "mortality_status") "deceased"
  let isFailed := jeqStr (jget patient "surgery_outcome") "failure"
  if isDeceased && isFailed then
    { rd with critical := rd.critical + 1 }
  else if isDeceased || (isFailed && decide (comorbidityCount ≥ 3)) then
    { rd with high := rd.high + 1 }
  else if isFailed || decide (comorbidityCount ≥ 2) then
    { rd with medium := rd.medium + 1 }
  else
    { rd with low := rd.low + 1 }

/-- A primary-concern entry on which the JS code cannot throw: an object
whose truthy comorbidity field, if any, is a string (every non-object entry
is safe). -/
def wellShapedConcern (c : JValue) : Bool :=
  match c with
  | .obj fs => !truthy (olookup fs "comorbidity") || (olookup fs "comorbidity").isStr
  | _ => true

/-- A patient record on which the aggregator cannot throw a TypeError: not
null or undefined, a truthy total_comorbidities is a number, the
primary_concerns field is an array of well-shaped entries, a string, or
falsy, and an array mortality_causes holds only strings or falsy entries. -/
def wellShapedPatient (p : JValue) : Bool :=
  !p.isNullish
    && (!truthy (jget p "total_comorbidities") || (jget p "total_comorbidities").isNum)
    && (match jget p "primary_concerns" with
        | .arr xs => xs.all wellShapedConcern
        | .str _ => true
        | v => !truthy v)
    && (match jget p "mortality_causes" with
        | .arr xs => xs.all (fun c => !truthy c || c.isStr)
        | _ => true)

/-- A match record on which the aggregator cannot throw: not null or
undefined, and truthy comorbidity_name and column_name fields are strings. -/
def wellShapedMatch (m : JValue) : Bool :=
  !m.isNullish
    && (!truthy (jget m "comorbidity_name") || (jget m "comorbidity_name").isStr)
    && (!truthy (jget m "column_name") || (jget m "column_name").isStr)

/-- Translation of generateEnhancedPatientAnalytics (lines 355 to 536).
The stats and existingAnalytics arguments are accepted and, exactly as in
the source, never read.  The forEach loops of the source are rendered as
filter lengths and folds over the patient list in source order. -/
def generateEnhancedPatientAnalytics (patientSummaries : List JValue)
    (stats : JValue) (matchRecords : List JValue)
    (existingAnalytics : JValue) : Analytics :=
  if patientSummaries.length = 0 then
    { total_patients := 0
      avg_comorbidities_per_patient := 0
      most_common_comorbidities := []
      most_effective_columns := []
      surgery_outcomes :=
        { successful := 0, failed := 0, unknown := 0, success_rate := 0 }
      mortality_analytics :=
        { deceased_patients := 0
          alive_patients := 0
          mortality_rate := 0
          mortality_causes := []
          failed_surgery_deaths := 0
          success_surgery_deaths := 0
          death_rate_in_failed := 0
          death_rate_in_successful := 0
          high_risk_comorbidities := []
          risk_distribution := { critical := 0, high := 0, medium := 0, low := 0 } }
      failure_causes := [] }
  else
    let totalPatients := patientSummaries.length
    let successful := (patientSummaries.filter (fun p =>
        jeqStr (jget p "surgery_outcome") "success")).length
    let failed := (patientSummaries.filter (fun p =>
        jeqStr (jget p "surgery_outcome") "failure")).length
    let unknownCount := (patientSummaries.filter (fun p =>
        jeqStr (jget p "surgery_outcome") "unknown"
          || !truthy (jget p "surgery_outcome"))).length
    let successRate : ℚ :=
      if totalPatients > 0 then (successful : ℚ) / (totalPatients : ℚ) * 100 else 0
    let deceased := (patientSummaries.filter (fun p =>
        jeqStr (jget p "mortality_status") "deceased")).length
    let alive := (patientSummaries.filter (fun p =>
        jeqStr (jget p "mortality_status") "alive"
          || !truthy (jget p "mortality_status"))).length
    let mortalityRate : ℚ :=
      if totalPatients > 0 then (deceased : ℚ) / (totalPatients : ℚ) * 100 else 0
    let failedSurgeryDeaths := (patientSummaries.filter (fun p =>
        jeqStr (jget p "mortality_status") "deceased"
          && jeqStr (jget p "surgery_outcome") "failure")).length
    let successSurgeryDeaths := (patientSummaries.filter (fun p =>
        jeqStr (jget p "mortality_status") "deceased"
          && jeqStr (jget p "surgery_outcome") "success")).length
    let allMortalityCauses := patientSummaries.foldl
        (fun acc p =>
          if jeqStr (jget p "mortality_status") "deceased" then
            acc ++ deceasedCauses p
          else acc)
        []
    let mortalityCauseFreq := allMortalityCauses.foldl bump []
    let deathRateInFailed : ℚ :=
      if failed > 0 then (failedSurgeryDeaths : ℚ) / (failed : ℚ) * 100 else 0
    let deathRateInSuccessful : ℚ :=
      if successful > 0 then (successSurgeryDeaths : ℚ) / (successful : ℚ) * 100 else 0
    let comorbidityCounts := comorbidityCountsFull patientSummaries matchRecords
    let highRisk := highRiskComorbidities patientSummaries comorbidityCounts
    let riskDistribution := patientSummaries.foldl riskStep
        { critical := 0, high := 0, medium := 0, low := 0 }
    let totalComorbidities : ℚ := patientSummaries.foldl
        (fun s p => s + jnumOr0 (jget p "total_comorbidities")) 0
    let avgComorbidities : ℚ := totalComorbidities / (patientSummaries.length : ℚ)
    { total_patients := patientSummaries.length
      avg_comorbidities_per_patient := avgComorbidities
      most_common_comorbidities := comorbidityCounts
      most_effective_columns := columnCounts matchRecords
      surgery_outcomes :=
        { successful := successful
          failed := failed
          unknown := unknownCount
          success_rate := successRate }
      mortality_analytics :=
        { deceased_patients := deceased
          alive_patients := alive
          mortality_rate := mortalityRate
          mortality_causes := mortalityCauseFreq
          failed_surgery_deaths := failedSurgeryDeaths
          success_surgery_deaths := successSurgeryDeaths
          death_rate_in_failed := deathRateInFailed
          death_rate_in_successful := deathRateInSuccessful
          high_risk_comorbidities := highRisk
          risk_distribution := riskDistribution }
      failure_causes := extractFailureCauses patientSummaries }
/-- The total of the four risk buckets. -/
def rdSum (rd : RiskDist) : Nat :=
  rd.critical + rd.high + rd.medium + rd.low

/-- The risk level of the spec (section 4.2 step 6), written from the spec
words for comparison with riskStep: first match wins, top to bottom. -/
inductive RiskLevel where
  | critical : RiskLevel
  | high : RiskLevel
  | medium : RiskLevel
  | low : RiskLevel

/-- Spec-side classifier: Critical when deceased and failed; else High when
deceased or failed with at least three comorbidities; else Medium when
failed or at least two comorbidities; else Low. -/
def riskLevelSpec (isDeceased isFailed : Bool) (totalComorbidities : ℚ) :
    RiskLevel :=
  if isDeceased && isFailed then .critical
  else if isDeceased || (isFailed && decide (totalComorbidities ≥ 3)) then .high
  else if isFailed || decide (totalComorbidities ≥ 2) then .medium
  else .low

/-- Increment the bucket named by a risk level. -/
def addBucket (rd : RiskDist) : RiskLevel → RiskDist
  | .critical => { rd with critical := rd.critical + 1 }
  | .high => { rd with high := rd.high + 1 }
  | .medium => { rd with medium := rd.medium + 1 }
  | .low => { rd with low := rd.low + 1 }

/-- A surgery outcome that is one of the three canonical strings, or falsy:
exactly the values on which the three outcome filters of the aggregator are
mutually exclusive and exhaustive. -/
def canonicalOutcome (p : JValue) : Prop :=
  jget p "surgery_outcome" = .str "success"
    ∨ jget p "surgery_outcome" = .str "failure"
    ∨ jget p "surgery_outcome" = .str "unknown"
    ∨ truthy (jget p "surgery_outcome") = false

/-- Decidable form of the high-risk condition of the source for one
comorbidity name: the subset of patients whose truthy primary_concerns
includes the name is non-empty, and the mortality rate within that subset
exceeds 20 percent. -/
def hrTest (ps : List JValue) (n : String) : Bool :=
  decide (0 < (ps.filter (fun p => truthy (jget p "primary_concerns")
      && jincludes (jget p "primary_concerns") n)).length)
    && decide ((((ps.filter (fun p => truthy (jget p "primary_concerns")
      && jincludes (jget p "primary_concerns") n)).filter (fun p =>
        jeqStr (jget p "mortality_status") "deceased")).length : ℚ)
      / (((ps.filter (fun p => truthy (jget p "primary_concerns")
      && jincludes (jget p "primary_concerns") n)).length : ℚ)) * 100 > 20)

/-- The single-patient list of the C2 counterexample: a truthy surgery
outcome outside the canonical set. -/
def psPartialOutcome : List JValue :=
  [.obj [("surgery_outcome", .str "partial")]]

/-- A two-patient list with one canonical and one missing outcome, used to
instantiate the partition theorem. -/
def psTwoCanonical : List JValue :=
  [.obj [("surgery_outcome", .str "success")],
   .obj [("surgery_outcome", .null)]]

/-- The single-patient scenario of claim C3: failed surgery, deceased,
three comorbidities. -/
def psCritical : List JValue :=
  [.obj [("surgery_outcome", .str "failure"),
         ("mortality_status", .str "deceased"),
         ("total_comorbidities", .num 3)]]

/-- The ten-patient scenario of claim C4: six success, three failure, one
unknown. -/
def psTen : List JValue :=
  [.obj [("surgery_outcome", .str "success")],
   .obj [("surgery_outcome", .str "success")],
   .obj [("surgery_outcome", .str "success")],
   .obj [("surgery_outcome", .str "success")],
   .obj [("surgery_outcome", .str "success")],
   .obj [("surgery_outcome", .str "success")],
   .obj [("surgery_outcome", .str "failure")],
   .obj [("surgery_outcome", .str "failure")],
   .obj [("surgery_outcome", .str "failure")],
   .obj [("surgery_outcome", .str "unknown")]]

/-- The single-patient list of the C5 counterexample: the literal string
null as a primary concern. -/
def psNullConcern : List JValue :=
  [.obj [("primary_concerns", .arr [.str "null"])]]

/-- A one-patient list with a failed surgery and one untrimmed failure
cause, used to instantiate the frequency-key theorem. -/
def psFailureCause : List JValue :=
  [.obj [("surgery_outcome", .str "failure"),
         ("failure_causes", .arr [.str " Sepsis "])]]

/-- Is a JSON.parse outcome the thrown-error case. -/
def exceptIsError : Except String JValue → Bool
  | .error _ => true
  | .ok _ => false

/-- The raw patient of the C7 counterexample: failure_causes already a
list, holding an untrimmed entry and the literal null token. -/
def rawNullCause : JValue :=
  .obj [("failure_causes", .arr [.str " x ", .str "null"])]

/-- The single-patient list of the C8 counterexample: a deceased patient
whose only primary concern is the untrimmed name. -/
def psUntrimmedConcern : List JValue :=
  [.obj [("primary_concerns", .arr [.str " D "]),
         ("mortality_status", .str "deceased")]]

/-- The five-patient scenario of claim C8: every patient has the concern
Diabetes, two of the five are deceased, a 40 percent rate. -/
def psDiabetes : List JValue :=
  [.obj [("primary_concerns", .arr [.str "Diabetes"]),
         ("mortality_status", .str "deceased")],
   .obj [("primary_concerns", .arr [.str "Diabetes"]),
         ("mortality_status", .str "deceased")],
   .obj [("primary_concerns", .arr [.str "Diabetes"]),
         ("mortality_status", .str "alive")],
   .obj [("primary_concerns", .arr [.str "Diabetes"]),
         ("mortality_status", .str "alive")],
   .obj [("primary_concerns", .arr [.str "Diabetes"]),
         ("mortality_status", .str "alive")]]

lemma jeqStr_eq_true_iff (v : JValue) (s : String) :
    jeqStr v s = true ↔ v = .str s := by
  cases v <;> simp [jeqStr]

lemma riskStep_eq_addBucket (rd : RiskDist) (p : JValue) :
    riskStep rd p =
      addBucket rd
        (riskLevelSpec (jeqStr (jget p "mortality_status") "deceased")
          (jeqStr (jget p "surgery_outcome") "failure")
          (jnumOr0 (jget p "total_comorbidities"))) := by
  unfold riskStep riskLevelSpec addBucket
  rcases h1 : jeqStr (jget p "mortality_status") "deceased" <;>
    rcases h2 : jeqStr (jget p "surgery_outcome") "failure" <;>
      simp [h1, h2] <;> split <;> simp

lemma rdSum_addBucket (rd : RiskDist) (lv : RiskLevel) :
    rdSum (addBucket rd lv) = rdSum rd + 1 := by
  cases lv <;> simp [addBucket, rdSum] <;> omega

lemma rdSum_foldl (l : List JValue) (rd : RiskDist) :
    rdSum (l.foldl riskStep rd) = rdSum rd + l.length := by
  induction l generalizing rd with
  | nil => simp
  | cons p t ih =>
    simp only [List.foldl_cons, ih, riskStep_eq_addBucket, rdSum_addBucket,
      List.length_cons]
    omega

/-- The aggregator on a non-empty patient list, with every let of the
source body spelled out; the division guards are resolved since the total
is positive. -/
lemma generate_eq_pos (ps : List JValue) (st : JValue) (ms : List JValue)
    (ea : JValue) (h : ps ≠ []) :
    generateEnhancedPatientAnalytics ps st ms ea =
      { total_patients := ps.length
        avg_comorbidities_per_patient :=
          (ps.foldl (fun s p => s + jnumOr0 (jget p "total_comorbidities")) 0)
            / (ps.length : ℚ)
        most_common_comorbidities := comorbidityCountsFull ps ms
        most_effective_columns := columnCounts ms
        surgery_outcomes :=
          { successful := (ps.filter (fun p =>
              jeqStr (jget p "surgery_outcome") "success")).length
            failed := (ps.filter (fun p =>
              jeqStr (jget p "surgery_outcome") "failure")).length
            unknown := (ps.filter (fun p =>
              jeqStr (jget p "surgery_outcome") "unknown"
                || !truthy (jget p "surgery_outcome"))).length
            success_rate :=
              ((ps.filter (fun p =>
                  jeqStr (jget p "surgery_outcome") "success")).length : ℚ)
                / (ps.length : ℚ) * 100 }
        mortality_analytics :=
          { deceased_patients := (ps.filter (fun p =>
              jeqStr (jget p "mortality_status") "deceased")).length
            alive_patients := (ps.filter (fun p =>
              jeqStr (jget p "mortality_status") "alive"
                || !truthy (jget p "mortality_status"))).length
            mortality_rate :=
              ((ps.filter (fun p =>
                  jeqStr (jget p "mortality_status") "deceased")).length : ℚ)
                / (ps.length : ℚ) * 100
            mortality_causes :=
              (ps.foldl
                (fun acc p =>
                  if jeqStr (jget p "mortality_status") "deceased" then
                    acc ++ deceasedCauses p
                  else acc)
                []).foldl bump []
            failed_surgery_deaths := (ps.filter (fun p =>
              jeqStr (jget p "mortality_status") "deceased"
                && jeqStr (jget p "surgery_outcome") "failure")).length
            success_surgery_deaths := (ps.filter (fun p =>
              jeqStr (jget p "mortality_status") "deceased"
                && jeqStr (jget p "surgery_outcome") "success")).length
            death_rate_in_failed :=
              if (ps.filter (fun p =>
                  jeqStr (jget p "surgery_outcome") "failure")).length > 0 then
                ((ps.filter (fun p =>
                    jeqStr (jget p "mortality_status") "deceased"
                      && jeqStr (jget p "surgery_outcome") "failure")).length : ℚ)
                  / ((ps.filter (fun p =>
                      jeqStr (jget p "surgery_outcome") "failure")).length : ℚ) * 100
              else 0
            death_rate_in_successful :=
              if (ps.filter (fun p =>
                  jeqStr (jget p "surgery_outcome") "success")).length > 0 then
                ((ps.filter (fun p =>
                    jeqStr (jget p "mortality_status") "deceased"
                      && jeqStr (jget p "surgery_outcome") "success")).length : ℚ)
                  / ((ps.filter (fun p =>
                      jeqStr (jget p "surgery_outcome") "success")).length : ℚ) * 100
              else 0
            high_risk_comorbidities :=
              highRiskComorbidities ps (comorbidityCountsFull ps ms)
            risk_distribution :=
              ps.foldl riskStep { critical := 0, high := 0, medium := 0, low := 0 } }
        failure_causes := extractFailureCauses ps } := by
  have hlen : ¬ ps.length = 0 := by
    simpa [List.length_eq_zero] using h
  have hpos : ps.length > 0 := Nat.pos_of_ne_zero hlen
  unfold generateEnhancedPatientAnalytics
  rw [if_neg hlen]
  simp only [if_pos hpos]

lemma fkeys_bump (m : Freq) (j : String) :
    fkeys (bump m j) =
      if m.any (fun kv => kv.1 = j) then fkeys m else fkeys m ++ [j] := by
  unfold bump fkeys
  split
  · rw [List.map_map]
    apply List.map_congr_left
    intro kv _
    by_cases h : kv.1 = j <;> simp [h]
  · simp

lemma mem_fkeys_bump (m : Freq) (j k : String)
    (hk : k ∈ fkeys (bump m j)) : k ∈ fkeys m ∨ k = j := by
  rw [fkeys_bump] at hk
  split at hk
  · exact Or.inl hk
  · simpa using hk

/-- Generic accumulator invariant for folds that only ever add keys
satisfying P; keysOf projects the keys out of the accumulator. -/
lemma foldl_key_inv {α β : Type} (keysOf : β → List String) (P : String → Prop)
    (f : β → α → β) :
    ∀ (l : List α) (m : β),
      (∀ m a, a ∈ l → ∀ k, k ∈ keysOf (f m a) → k ∈ keysOf m ∨ P k) →
      (∀ k ∈ keysOf m, P k) → ∀ k ∈ keysOf (l.foldl f m), P k := by
  intro l
  induction l with
  | nil => intro m _ hm k hk; exact hm k hk
  | cons a t ih =>
    intro m hf hm k hk
    simp only [List.foldl_cons] at hk
    refine ih (f m a)
      (fun m b hb k hk => hf m b (List.mem_cons_of_mem _ hb) k hk) ?_ k hk
    intro k hk
    rcases hf m a (List.mem_cons_self _ _) k hk with h | h
    · exact hm k h
    · exact h

/-- Folding bump over a list of strings that satisfy P keeps every key of
the frequency map satisfying P. -/
lemma fkeys_foldl_bump (l : List String) (m : Freq) (P : String → Prop)
    (hl : ∀ c ∈ l, P c) (hm : ∀ k ∈ fkeys m, P k) :
    ∀ k ∈ fkeys (l.foldl bump m), P k := by
  refine foldl_key_inv fkeys P bump l m ?_ hm
  intro m c hc k hk
  rcases mem_fkeys_bump m c k hk with h | h
  · exact Or.inl h
  · exact Or.inr (h ▸ hl c hc)

lemma jsTrim_ne_empty {s : String} (h : jsTrim s ≠ "") : s ≠ "" := by
  intro he
  exact h (by rw [he]; rfl)

lemma deceasedCauses_mem_ne_empty (p : JValue) :
    ∀ k ∈ deceasedCauses p, k ≠ "" := by
  intro k hk
  unfold deceasedCauses at hk
  split at hk
  case h_1 xs heq =>
    rcases List.mem_filterMap.mp hk with ⟨c, _, hc⟩
    cases c <;> try exact Option.noConfusion hc
    case str s =>
      simp only at hc
      split at hc
      case isTrue h =>
        cases hc
        exact h.2.1
      case isFalse => exact Option.noConfusion hc
  case h_2 => cases hk

lemma failureCauseStep_keys (m : Freq) (c : JValue) :
    ∀ k ∈ fkeys (failureCauseStep m c),
      k ∈ fkeys m ∨ (k ≠ "" ∧ k ≠ "null" ∧ k ≠ "undefined") := by
  intro k hk
  unfold failureCauseStep at hk
  cases c <;> simp only at hk
  case str s =>
    split at hk
    case isTrue h1 =>
      split at hk
      case isTrue h2 =>
        rcases mem_fkeys_bump _ _ _ hk with h3 | h3
        · exact Or.inl h3
        · exact Or.inr (h3 ▸ ⟨h2.2.1, h2.1, h2.2.2⟩)
      case isFalse => exact Or.inl hk
    case isFalse => exact Or.inl hk
  all_goals exact Or.inl hk

lemma extractFailureCauses_keys (ps : List JValue) :
    ∀ k ∈ fkeys (extractFailureCauses ps),
      k ≠ "" ∧ k ≠ "null" ∧ k ≠ "undefined" := by
  unfold extractFailureCauses
  refine foldl_key_inv fkeys _ _ ps [] ?_ (by simp [fkeys])
  intro m p _ k hk
  split at hk
  · refine foldl_key_inv fkeys
      (fun k => k ∈ fkeys m ∨ (k ≠ "" ∧ k ≠ "null" ∧ k ≠ "undefined")) _ _ m ?_
      (fun k hk => Or.inl hk) k hk
    intro m' c _ k hk
    exact (failureCauseStep_keys m' c k hk).imp_right Or.inr
  · exact Or.inl hk

lemma concernCleanName_ne_empty (c : JValue) (n : String)
    (h : concernCleanName c = some n) : n ≠ "" := by
  unfold concernCleanName at h
  cases c <;> try exact Option.noConfusion h
  case str s =>
    simp only at h
    split at h
    case isTrue h1 => cases h; exact h1.2
    case isFalse => exact Option.noConfusion h
  case obj fs =>
    simp only at h
    split at h
    · split at h
      · rename_i h1
        cases h
        exact h1.2
      · exact Option.noConfusion h
    · exact Option.noConfusion h

lemma comorbidityCountsFromConcerns_keys (ps : List JValue) :
    ∀ k ∈ fkeys (comorbidityCountsFromConcerns ps), k ≠ "" := by
  unfold comorbidityCountsFromConcerns
  refine foldl_key_inv fkeys _ _ ps [] ?_ (by simp [fkeys])
  intro m p _ k hk
  split at hk
  case h_1 xs heq =>
    refine foldl_key_inv fkeys (fun k => k ∈ fkeys m ∨ k ≠ "") _ xs m ?_
      (fun k hk => Or.inl hk) k hk
    intro m' c _ k hk
    cases hcn : concernCleanName c <;> rw [hcn] at hk
    · exact Or.inl hk
    case some n =>
      rcases mem_fkeys_bump _ _ _ hk with h | h
      · exact Or.inl h
      · exact Or.inr (Or.inr (h ▸ concernCleanName_ne_empty c n hcn))
  case h_2 => exact Or.inl hk

lemma comorbidityCountsFromMatches_keys (ms : List JValue) :
    ∀ k ∈ fkeys (comorbidityCountsFromMatches ms), k ≠ "" := by
  unfold comorbidityCountsFromMatches
  refine foldl_key_inv fkeys _ _ ms [] ?_ (by simp [fkeys])
  intro m mt _ k hk
  split at hk
  case h_1 s =>
    split at hk
    case isTrue h1 =>
      rcases mem_fkeys_bump _ _ _ hk with h | h
      · exact Or.inl h
      · exact Or.inr (h ▸ jsTrim_ne_empty h1.2)
    case isFalse => exact Or.inl hk
  case h_2 => exact Or.inl hk

lemma comorbidityCountsFull_keys (ps ms : List JValue) :
    ∀ k ∈ fkeys (comorbidityCountsFull ps ms), k ≠ "" := by
  intro k hk
  simp only [comorbidityCountsFull] at hk
  split at hk
  · exact comorbidityCountsFromMatches_keys ms k hk
  · exact comorbidityCountsFromConcerns_keys ps k hk

lemma columnCounts_keys (ms : List JValue) :
    ∀ k ∈ fkeys (columnCounts ms), k ≠ "" := by
  unfold columnCounts
  refine foldl_key_inv fkeys _ _ ms [] ?_ (by simp [fkeys])
  intro m mt _ k hk
  split at hk
  case h_1 s =>
    split at hk
    case isTrue h1 =>
      rcases mem_fkeys_bump _ _ _ hk with h | h
      · exact Or.inl h
      · exact Or.inr (h ▸ jsTrim_ne_empty h1.2)
    case isFalse => exact Or.inl hk
  case h_2 => exact Or.inl hk

lemma allMortalityCauses_mem_ne_empty (ps : List JValue) :
    ∀ k ∈ ps.foldl
      (fun acc p =>
        if jeqStr (jget p "mortality_status") "deceased" then
          acc ++ deceasedCauses p
        else acc)
      [], k ≠ "" := by
  refine foldl_key_inv (fun l => l) _ _ ps [] ?_ (by simp)
  intro acc p _ k hk
  split at hk
  · rcases List.mem_append.mp hk with h | h
    · exact Or.inl h
    · exact Or.inr (deceasedCauses_mem_ne_empty p k h)
  · exact Or.inl hk

lemma mortalityCauseFreq_keys (ps : List JValue) :
    ∀ k ∈ fkeys
      ((ps.foldl
        (fun acc p =>
          if jeqStr (jget p "mortality_status") "deceased" then
            acc ++ deceasedCauses p
          else acc)
        []).foldl bump []), k ≠ "" := by
  refine fkeys_foldl_bump _ [] _ ?_ (by simp [fkeys])
  exact allMortalityCauses_mem_ne_empty ps

lemma outcome_partition (ps : List JValue)
    (h : ∀ p ∈ ps, canonicalOutcome p) :
    (ps.filter (fun p => jeqStr (jget p "surgery_outcome") "success")).length
      + (ps.filter (fun p => jeqStr (jget p "surgery_outcome") "failure")).length
      + (ps.filter (fun p =>
          jeqStr (jget p "surgery_outcome") "unknown"
            || !truthy (jget p "surgery_outcome"))).length
      = ps.length := by
  induction ps with
  | nil => simp
  | cons p t ih =>
    have hp := h p (List.mem_cons_self _ _)
    have ht := ih (fun q hq => h q (List.mem_cons_of_mem _ hq))
    simp only [List.filter_cons, List.length_cons]
    rcases hp with h1 | h1 | h1 | h1
    · have e1 : jeqStr (jget p "surgery_outcome") "success" = true := by rw [h1]; rfl
      have e2 : jeqStr (jget p "surgery_outcome") "failure" = false := by rw [h1]; rfl
      have e3 : (jeqStr (jget p "surgery_outcome") "unknown"
          || !truthy (jget p "surgery_outcome")) = false := by rw [h1]; rfl
      simp only [e1, e2, e3]
      simp only [if_true, if_false, List.length_cons, Bool.false_eq_true, if_neg,
        reduceIte]
      omega
    · have e1 : jeqStr (jget p "surgery_outcome") "success" = false := by rw [h1]; rfl
      have e2 : jeqStr (jget p "surgery_outcome") "failure" = true := by rw [h1]; rfl
      have e3 : (jeqStr (jget p "surgery_outcome") "unknown"
          || !truthy (jget p "surgery_outcome")) = false := by rw [h1]; rfl
      simp only [e1, e2, e3]
      simp only [if_true, if_false, List.length_cons, Bool.false_eq_true, if_neg,
        reduceIte]
      omega
    · have e1 : jeqStr (jget p "surgery_outcome") "success" = false := by rw [h1]; rfl
      have e2 : jeqStr (jget p "surgery_outcome") "failure" = false := by rw [h1]; rfl
      have e3 : (jeqStr (jget p "surgery_outcome") "unknown"
          || !truthy (jget p "surgery_outcome")) = true := by rw [h1]; rfl
      simp only [e1, e2, e3]
      simp only [if_true, if_false, List.length_cons, Bool.false_eq_true, if_neg,
        reduceIte]
      omega
    · have h2 : jeqStr (jget p "surgery_outcome") "success" = false ∧
          jeqStr (jget p "surgery_outcome") "failure" = false := by
        cases ho : jget p "surgery_outcome" <;> rw [ho] at h1 <;>
          simp [jeqStr, truthy] at h1 ⊢ <;> simp [h1]
      have e3 : (jeqStr (jget p "surgery_outcome") "unknown"
          || !truthy (jget p "surgery_outcome")) = true := by
        rw [h1]
        simp
      simp only [h2.1, h2.2, e3]
      simp only [if_true, if_false, List.length_cons, Bool.false_eq_true, if_neg,
        reduceIte]
      omega

lemma hrStep_map_fst (ps : List JValue) (acc : List (String × ℚ))
    (kv : String × Nat) (n : String) :
    n ∈ (highRiskStep ps acc kv).map Prod.fst ↔
      n ∈ acc.map Prod.fst ∨ (n = kv.1 ∧ hrTest ps n = true) := by
  simp only [highRiskStep, hrTest]
  by_cases hpos : 0 < (ps.filter (fun p => truthy (jget p "primary_concerns")
      && jincludes (jget p "primary_concerns") kv.1)).length
  · by_cases hrate : (((ps.filter (fun p => truthy (jget p "primary_concerns")
        && jincludes (jget p "primary_concerns") kv.1)).filter (fun p =>
          jeqStr (jget p "mortality_status") "deceased")).length : ℚ)
        / (((ps.filter (fun p => truthy (jget p "primary_concerns")
        && jincludes (jget p "primary_concerns") kv.1)).length : ℚ)) * 100 > 20
    · rw [if_pos hpos, if_pos hrate]
      simp only [List.map_append, List.mem_append, List.map_cons, List.map_nil,
        List.mem_singleton]
      constructor
      · rintro (h | h)
        · exact Or.inl h
        · subst h
          refine Or.inr ⟨rfl, ?_⟩
          rw [Bool.and_eq_true]
          exact ⟨decide_eq_true hpos, decide_eq_true hrate⟩
      · rintro (h | ⟨hn, _⟩)
        · exact Or.inl h
        · exact Or.inr hn
    · rw [if_pos hpos, if_neg hrate]
      constructor
      · exact Or.inl
      · rintro (h | ⟨hn, ht⟩)
        · exact h
        · subst hn
          rw [Bool.and_eq_true] at ht
          exact absurd (of_decide_eq_true ht.2) hrate
  · rw [if_neg hpos]
    constructor
    · exact Or.inl
    · rintro (h | ⟨hn, ht⟩)
      · exact h
      · subst hn
        rw [Bool.and_eq_true] at ht
        exact absurd (of_decide_eq_true ht.1) hpos

lemma highRisk_foldl_mem (ps : List JValue) (l : Freq) :
    ∀ (acc : List (String × ℚ)) (n : String),
      n ∈ (l.foldl (highRiskStep ps) acc).map Prod.fst ↔
        n ∈ acc.map Prod.fst ∨ (n ∈ fkeys l ∧ hrTest ps n = true) := by
  induction l with
  | nil =>
    intro acc n
    simp [fkeys]
  | cons kv t ih =>
    intro acc n
    simp only [List.foldl_cons]
    rw [ih, hrStep_map_fst]
    simp only [fkeys, List.map_cons, List.mem_cons]
    constructor
    · rintro ((h | ⟨hn, ht⟩) | ⟨hmem, ht⟩)
      · exact Or.inl h
      · exact Or.inr ⟨Or.inl hn, ht⟩
      · exact Or.inr ⟨Or.inr hmem, ht⟩
    · rintro (h | ⟨hor, ht⟩)
      · exact Or.inl (Or.inl h)
      · rcases hor with hn | hmem
        · exact Or.inl (Or.inr ⟨hn, ht⟩)
        · exact Or.inr ⟨hmem, ht⟩

lemma mem_highRisk_iff (ps : List JValue) (counts : Freq) (n : String) :
    n ∈ (highRiskComorbidities ps counts).map Prod.fst ↔
      n ∈ fkeys counts ∧ hrTest ps n = true := by
  unfold highRiskComorbidities
  rw [highRisk_foldl_mem]
  simp

/-- Claim C1, counterexample: the spec says a raw surgery outcome outside
the canonical set normalizes to unknown, but the code keeps any truthy raw
value: on the raw value partial the code returns partial while the spec
sentence demands unknown, so the two definitions disagree there. -/
theorem C1_counterexample :
    normalizeSurgeryOutcome (.str "partial") = .str "partial"
    ∧ normalizeSurgeryOutcomeSpec (.str "partial") = .str "unknown"
    ∧ normalizeSurgeryOutcome (.str "partial")
        ≠ normalizeSurgeryOutcomeSpec (.str "partial") := by
  refine ⟨rfl, rfl, ?_⟩
  intro h
  have h2 : JValue.str "partial" = JValue.str "unknown" := h
  injection h2 with h3
  exact absurd h3 (by decide)

/-- Claim C1 (amended): the normalization keeps any truthy raw value
unchanged, maps every falsy raw value (missing, null, empty string) to
unknown, and in particular never fabricates success from a raw value that
is not already the string success. -/
theorem C1_surgery_outcome_normalization :
    (∀ raw, truthy raw = true → normalizeSurgeryOutcome raw = raw)
    ∧ (∀ raw, truthy raw = false → normalizeSurgeryOutcome raw = .str "unknown")
    ∧ normalizeSurgeryOutcome .null = .str "unknown"
    ∧ normalizeSurgeryOutcome .undefined = .str "unknown"
    ∧ normalizeSurgeryOutcome (.str "") = .str "unknown"
    ∧ (∀ raw, raw ≠ .str "success" →
        normalizeSurgeryOutcome raw ≠ .str "success") := by
  refine ⟨?_, ?_, rfl, rfl, rfl, ?_⟩
  · intro raw h
    simp [normalizeSurgeryOutcome, h]
  · intro raw h
    simp [normalizeSurgeryOutcome, h]
  · intro raw h
    unfold normalizeSurgeryOutcome
    split
    · exact h
    · intro he
      injection he with h3
      exact absurd h3 (by decide)

/-- Witness for C1: the theorem applied at concrete raw values. -/
theorem C1_surgery_outcome_normalization_witness :
    normalizeSurgeryOutcome (.str "failure") = .str "failure"
    ∧ normalizeSurgeryOutcome (.bool false) = .str "unknown"
    ∧ normalizeSurgeryOutcome (.str "partial") ≠ .str "success" :=
  ⟨C1_surgery_outcome_normalization.1 (.str "failure") (by decide),
   C1_surgery_outcome_normalization.2.1 (.bool false) (by decide),
   C1_surgery_outcome_normalization.2.2.2.2.2 (.str "partial")
     (by intro h; injection h with h3; exact absurd h3 (by decide))⟩

/-- Claim C2, counterexample: the three outcome counters do not partition
every patient list; a patient whose surgery_outcome is the truthy
non-canonical string partial is counted by none of the three filters, so
the counts sum to 0 while the total is 1. -/
theorem C2_counterexample :
    (generateEnhancedPatientAnalytics psPartialOutcome .null [] .null).surgery_outcomes.successful
      + (generateEnhancedPatientAnalytics psPartialOutcome .null [] .null).surgery_outcomes.failed
      + (generateEnhancedPatientAnalytics psPartialOutcome .null [] .null).surgery_outcomes.unknown
      = 0
    ∧ (generateEnhancedPatientAnalytics psPartialOutcome .null [] .null).total_patients = 1 :=
  ⟨by decide, by decide⟩

/-- Claim C2 (amended): for patient lists on which the aggregator cannot
throw and whose surgery_outcome values are canonical (success, failure,
unknown) or falsy, the three outcome counts partition the patients:
successful plus failed plus unknown equals totalPatients. -/
theorem C2_outcome_counts_partition (ps : List JValue) (st : JValue)
    (ms : List JValue) (ea : JValue)
    (hws : ps.all wellShapedPatient = true)
    (hms : ms.all wellShapedMatch = true)
    (hout : ∀ p ∈ ps, canonicalOutcome p) :
    (generateEnhancedPatientAnalytics ps st ms ea).surgery_outcomes.successful
      + (generateEnhancedPatientAnalytics ps st ms ea).surgery_outcomes.failed
      + (generateEnhancedPatientAnalytics ps st ms ea).surgery_outcomes.unknown
      = (generateEnhancedPatientAnalytics ps st ms ea).total_patients := by
  rcases eq_or_ne ps [] with h | h
  · subst h; rfl
  · rw [generate_eq_pos ps st ms ea h]
    exact outcome_partition ps hout

/-- Witness for C2: the theorem applied to a concrete two-patient list. -/
theorem C2_outcome_counts_partition_witness :
    (generateEnhancedPatientAnalytics psTwoCanonical .null [] .null).surgery_outcomes.successful
      + (generateEnhancedPatientAnalytics psTwoCanonical .null [] .null).surgery_outcomes.failed
      + (generateEnhancedPatientAnalytics psTwoCanonical .null [] .null).surgery_outcomes.unknown
      = (generateEnhancedPatientAnalytics psTwoCanonical .null [] .null).total_patients :=
  C2_outcome_counts_partition psTwoCanonical .null [] .null (by decide) (by decide)
    (by
      intro p hp
      rcases List.mem_cons.mp hp with h | hp2
      · subst h
        exact Or.inl rfl
      · rcases List.mem_cons.mp hp2 with h | hp3
        · subst h
          exact Or.inr (Or.inr (Or.inr rfl))
        · cases hp3)

/-- Claim C3: the risk pass classifies each patient by the first-match-wins
chain of the spec (checked through riskLevelSpec, written from the spec
words), the four bucket counts always sum to the number of patients, and
the single critical-scenario patient lands in Critical alone. -/
theorem C3_risk_buckets (ps : List JValue) (st : JValue) (ms : List JValue)
    (ea : JValue) (hws : ps.all wellShapedPatient = true)
    (hms : ms.all wellShapedMatch = true) :
    rdSum ((generateEnhancedPatientAnalytics ps st ms ea).mortality_analytics.risk_distribution)
      = (generateEnhancedPatientAnalytics ps st ms ea).total_patients
    ∧ (∀ rd p, riskStep rd p = addBucket rd
        (riskLevelSpec (jeqStr (jget p "mortality_status") "deceased")
          (jeqStr (jget p "surgery_outcome") "failure")
          (jnumOr0 (jget p "total_comorbidities"))))
    ∧ (generateEnhancedPatientAnalytics psCritical .null [] .null).mortality_analytics.risk_distribution
        = ⟨1, 0, 0, 0⟩ := by
  refine ⟨?_, riskStep_eq_addBucket, rfl⟩
  rcases eq_or_ne ps [] with h | h
  · subst h; rfl
  · rw [generate_eq_pos ps st ms ea h]
    show rdSum (ps.foldl riskStep ⟨0, 0, 0, 0⟩) = ps.length
    rw [rdSum_foldl]
    simp [rdSum]

/-- Witness for C3: the theorem applied to the critical-scenario list. -/
theorem C3_risk_buckets_witness :
    rdSum ((generateEnhancedPatientAnalytics psCritical .null [] .null).mortality_analytics.risk_distribution)
      = (generateEnhancedPatientAnalytics psCritical .null [] .null).total_patients :=
  (C3_risk_buckets psCritical .null [] .null (by decide) (by decide)).1

/-- Claim C4: successRate is the success count over the total times 100,
with 0 on the empty list, and the ten-patient scenario (six success, three
failure, one unknown) yields exactly 60; unknown outcomes stay in the
denominator. -/
theorem C4_success_rate (ps : List JValue) (st : JValue) (ms : List JValue)
    (ea : JValue) (hws : ps.all wellShapedPatient = true)
    (hms : ms.all wellShapedMatch = true) :
    (generateEnhancedPatientAnalytics ps st ms ea).surgery_outcomes.success_rate
      = (if ps.length = 0 then (0 : ℚ) else
          ((ps.countP (fun p => jeqStr (jget p "surgery_outcome") "success")) : ℚ)
            / (ps.length : ℚ) * 100)
    ∧ (generateEnhancedPatientAnalytics psTen .null [] .null).surgery_outcomes.success_rate
        = 60
    ∧ (generateEnhancedPatientAnalytics psTen .null [] .null).total_patients = 10
    ∧ (generateEnhancedPatientAnalytics psTen .null [] .null).surgery_outcomes.unknown = 1 := by
  refine ⟨?_, by with_unfolding_all rfl, by decide, by decide⟩
  rcases eq_or_ne ps [] with h | h
  · subst h; rfl
  · have hlen : ¬ ps.length = 0 := by simpa [List.length_eq_zero] using h
    rw [generate_eq_pos ps st ms ea h, if_neg hlen, List.countP_eq_length_filter]

/-- Witness for C4: the theorem applied to the ten-patient scenario. -/
theorem C4_success_rate_witness :
    (generateEnhancedPatientAnalytics psTen .null [] .null).surgery_outcomes.success_rate = 60 :=
  (C4_success_rate psTen .null [] .null (by decide) (by decide)).2.1

/-- Claim C5, counterexample: a primary concern that is the literal string
null is counted as a comorbidity key, so mostCommonComorbidities can
contain the key null (the concern loop filters only blank names, not the
null and undefined tokens). -/
theorem C5_counterexample :
    (generateEnhancedPatientAnalytics psNullConcern .null [] .null).most_common_comorbidities
      = [("null", 1)]
    ∧ "null" ∈ fkeys ((generateEnhancedPatientAnalytics psNullConcern .null [] .null).most_common_comorbidities) :=
  ⟨rfl, by decide⟩

/-- Claim C5 (amended): failureCauses never contains an empty, null or
undefined key; the other three frequency maps never contain an empty key,
but mostCommonComorbidities, mostEffectiveColumns and mortalityCauses are
not filtered against the literal null and undefined tokens. -/
theorem C5_frequency_map_keys (ps : List JValue) (st : JValue)
    (ms : List JValue) (ea : JValue)
    (hws : ps.all wellShapedPatient = true)
    (hms : ms.all wellShapedMatch = true) :
    (∀ k ∈ fkeys ((generateEnhancedPatientAnalytics ps st ms ea).failure_causes),
        k ≠ "" ∧ k ≠ "null" ∧ k ≠ "undefined")
    ∧ (∀ k ∈ fkeys ((generateEnhancedPatientAnalytics ps st ms ea).most_common_comorbidities),
        k ≠ "")
    ∧ (∀ k ∈ fkeys ((generateEnhancedPatientAnalytics ps st ms ea).most_effective_columns),
        k ≠ "")
    ∧ (∀ k ∈ fkeys ((generateEnhancedPatientAnalytics ps st ms ea).mortality_analytics.mortality_causes),
        k ≠ "") := by
  rcases eq_or_ne ps [] with h | h
  · subst h
    refine ⟨?_, ?_, ?_, ?_⟩ <;> intro k hk <;>
      exact absurd hk (List.not_mem_nil k)
  · rw [generate_eq_pos ps st ms ea h]
    exact ⟨extractFailureCauses_keys ps, comorbidityCountsFull_keys ps ms,
      columnCounts_keys ms, mortalityCauseFreq_keys ps⟩

/-- Witness for C5: the theorem applied to a concrete failed-surgery list,
read off at the single trimmed key its failure-cause map holds. -/
theorem C5_frequency_map_keys_witness :
    "Sepsis" ≠ "" ∧ "Sepsis" ≠ "null" ∧ "Sepsis" ≠ "undefined" :=
  (C5_frequency_map_keys psFailureCause .null [] .null (by decide) (by decide)).1
    "Sepsis" (by decide)

/-- Claim C6: safeParseJSONArray decodes a JSON array string, comma-splits
a malformed string, falls back to the default on null, and a JSON.parse
failure is always absorbed into the comma-split or single-element
best-effort result, never propagated. -/
theorem C6_safe_parse_json_array :
    safeParseJSONArray (.str "[\"a\",\"b\"]") [] = [.str "a", .str "b"]
    ∧ safeParseJSONArray (.str "a,b,c") [] = [.str "a", .str "b", .str "c"]
    ∧ safeParseJSONArray .null [] = []
    ∧ (∀ s fb, exceptIsError (jsonParse s) = true → jsTrim s ≠ "" →
        safeParseJSONArray (.str s) fb
          = (if strIncludes s "," then (bestEffortSplit s).map JValue.str
             else [JValue.str (stripQB s)])) := by
  refine ⟨rfl, rfl, rfl, ?_⟩
  intro s fb herr htrim
  simp only [safeParseJSONArray]
  rw [if_pos htrim]
  cases hp : jsonParse s with
  | error e => rfl
  | ok j =>
    rw [hp] at herr
    exact absurd herr (by simp [exceptIsError])

/-- Witness for C6: the degradation clause applied to a concrete malformed
string. -/
theorem C6_safe_parse_json_array_witness :
    safeParseJSONArray (.str "x,y") [] = [.str "x", .str "y"] := by
  have h := C6_safe_parse_json_array.2.2.2 "x,y" [] (by rfl) (by decide)
  rw [h]
  rfl

/-- Claim C7, counterexample: the normalization of failure_causes passes a
proper list through unchanged, so the normalized list keeps the untrimmed
entry and the literal null token, contradicting the claimed trimming and
token exclusion. -/
theorem C7_counterexample :
    jget (transformPatient rawNullCause) "failure_causes"
      = .arr [.str " x ", .str "null"]
    ∧ jsTrim " x " ≠ " x " :=
  ⟨rfl, by decide⟩

/-- Claim C7 (amended): each of the three list fields is normalized exactly
by safeParseJSONArray with empty fallback; a proper list passes through
unmodified (no trimming, no token filtering), and only the comma-split
recovery branch guarantees non-empty entries. -/
theorem C7_list_field_normalization :
    (∀ p, jget (transformPatient p) "failure_causes"
        = .arr (safeParseJSONArray (jget p "failure_causes") [])
      ∧ jget (transformPatient p) "primary_concerns"
        = .arr (safeParseJSONArray (jget p "primary_concerns") [])
      ∧ jget (transformPatient p) "mortality_causes"
        = .arr (safeParseJSONArray (jget p "mortality_causes") []))
    ∧ (∀ xs fb, safeParseJSONArray (.arr xs) fb = xs)
    ∧ (∀ s fb, exceptIsError (jsonParse s) = true → jsTrim s ≠ "" →
        strIncludes s "," = true →
        ∀ v ∈ safeParseJSONArray (.str s) fb, ∃ t, v = JValue.str t ∧ t ≠ "") := by
  refine ⟨fun p => ⟨rfl, rfl, rfl⟩, fun xs fb => rfl, ?_⟩
  intro s fb herr htrim hcomma v hv
  simp only [safeParseJSONArray] at hv
  rw [if_pos htrim] at hv
  cases hp : jsonParse s with
  | ok j =>
    rw [hp] at herr
    exact absurd herr (by simp [exceptIsError])
  | error e =>
    rw [hp] at hv
    simp only [hcomma, if_true] at hv
    rcases List.mem_map.mp hv with ⟨t, ht, rfl⟩
    refine ⟨t, rfl, ?_⟩
    unfold bestEffortSplit at ht
    have := List.of_mem_filter ht
    simpa using this

/-- Witness for C7: the comma-split clause applied to a concrete malformed
string and element. -/
theorem C7_list_field_normalization_witness :
    ∃ t, JValue.str "a" = JValue.str t ∧ t ≠ "" :=
  C7_list_field_normalization.2.2 "a,,b" [] (by rfl) (by decide) (by rfl)
    (JValue.str "a") (List.mem_cons_self _ _)

/-- Claim C8, counterexample: the comorbidity name written " D " with
spaces appears in the only patient and that patient is deceased, so the
mortality rate among the patients whose primaryConcerns contain the name
is 100 percent, above the 20 percent threshold; yet the high-risk map is
empty, because the scan keys the subset filter on the trimmed name D,
which no concern list contains. -/
theorem C8_counterexample :
    (generateEnhancedPatientAnalytics psUntrimmedConcern .null [] .null).mortality_analytics.high_risk_comorbidities
      = []
    ∧ jincludes (jget (.obj [("primary_concerns", .arr [.str " D "]),
        ("mortality_status", .str "deceased")]) "primary_concerns") " D " = true
    ∧ hrTest psUntrimmedConcern " D " = true
    ∧ fkeys ((generateEnhancedPatientAnalytics psUntrimmedConcern .null [] .null).most_common_comorbidities)
        = ["D"] := by
  refine ⟨rfl, rfl, by with_unfolding_all rfl, rfl⟩

/-- Claim C8 (amended): a name is a key of highRiskComorbidities exactly
when it is a key of the comorbidity-frequency map (trimmed names from the
concern pass, or untrimmed match names in the fallback) and the subset of
patients whose truthy primaryConcerns includes the name exactly is
non-empty with a mortality rate above 20 percent. -/
theorem C8_high_risk_membership (ps : List JValue) (st : JValue)
    (ms : List JValue) (ea : JValue)
    (hws : ps.all wellShapedPatient = true)
    (hms : ms.all wellShapedMatch = true) (n : String) :
    n ∈ ((generateEnhancedPatientAnalytics ps st ms ea).mortality_analytics.high_risk_comorbidities).map Prod.fst
      ↔ n ∈ fkeys ((generateEnhancedPatientAnalytics ps st ms ea).most_common_comorbidities)
          ∧ hrTest ps n = true := by
  rcases eq_or_ne ps [] with h | h
  · subst h
    constructor
    · intro hmem
      exact absurd hmem (List.not_mem_nil n)
    · rintro ⟨hmem, _⟩
      exact absurd hmem (List.not_mem_nil n)
  · rw [generate_eq_pos ps st ms ea h]
    exact mem_highRisk_iff ps (comorbidityCountsFull ps ms) n

/-- Witness for C8: the Diabetes scenario, two deceased of five carriers,
rate 40 percent, is a key of the high-risk map by the theorem. -/
theorem C8_high_risk_membership_witness :
    "Diabetes" ∈ ((generateEnhancedPatientAnalytics psDiabetes .null [] .null).mortality_analytics.high_risk_comorbidities).map Prod.fst :=
  (C8_high_risk_membership psDiabetes .null [] .null (by decide) (by decide)
      "Diabetes").mpr ⟨by decide, by with_unfolding_all rfl⟩

/-- Claim C9: the empty patient list is not an error; the aggregator
returns the all-zero summary with empty frequency maps and zero rates,
whatever the stats, match and existing-analytics arguments are. -/
theorem C9_empty_patient_list (st : JValue) (ms : List JValue) (ea : JValue) :
    generateEnhancedPatientAnalytics [] st ms ea =
      { total_patients := 0
        avg_comorbidities_per_patient := 0
        most_common_comorbidities := []
        most_effective_columns := []
        surgery_outcomes :=
          { successful := 0, failed := 0, unknown := 0, success_rate := 0 }
        mortality_analytics :=
          { deceased_patients := 0
            alive_patients := 0
            mortality_rate := 0
            mortality_causes := []
            failed_surgery_deaths := 0
            success_surgery_deaths := 0
            death_rate_in_failed := 0
            death_rate_in_successful := 0
            high_risk_comorbidities := []
            risk_distribution := { critical := 0, high := 0, medium := 0, low := 0 } }
        failure_causes := [] } :=
  rfl

/-- Claim C10: the summary never depends on the existingAnalytics argument;
backend-precomputed analytics are discarded and recomputed from the
per-patient records. -/
theorem C10_existing_analytics_ignored (ps : List JValue) (st : JValue)
    (ms : List JValue) (ea1 ea2 : JValue) :
    generateEnhancedPatientAnalytics ps st ms ea1
      = generateEnhancedPatientAnalytics ps st ms ea2 :=
  rfl
